/-
Verification of the BudgetWise retrieval-and-answering engine
(`backend/langchain_rag.py`) against its natural-language specification.

Shallow embedding conventions:
* Python strings are `List Char`.
* Python ints are `Int`; Python floats are modelled as exact rationals
  (`Rat`); binary floating-point rounding artifacts are elided, and the
  CPython guarantee that `float(str(x)) == x` for a float `x` is modelled by
  an injective rendering `pyStrFloat` together with its parser
  `pyParseFloat?`.
* Fallible Python operations (`int(s)`, `float(s)`, list indexing) return
  `Option`/`Except`; a raised exception is an `Except.error`.
* External collaborators (FAISS similarity search, the embedding provider,
  the Gemini generation capability, the filesystem) are passed in as
  explicit oracle arguments describing their outcome for the one call the
  modelled function makes.
-/
import Mathlib

namespace BudgetWise

/-- Python exception, carried as its message text (`str(e)`). -/
abbrev PyErr := List Char

deriving instance DecidableEq for Except

/-- The apostrophe character, used inside some fixed message strings. -/
def apos : Char := Char.ofNat 39

/-! ### Decimal rendering and parsing of Python numbers -/

/-- The ASCII digit character for `d % 10`. -/
def digitChar (d : Nat) : Char := Char.ofNat (48 + d % 10)

/-- Is `c` an ASCII decimal digit? -/
def isDigitChar (c : Char) : Bool := 48 ≤ c.toNat && c.toNat ≤ 57

/-- Fuel-indexed decimal rendering of a natural number (most significant
digit first).  Any `fuel > n` is enough fuel. -/
def natStrRec : Nat → Nat → List Char
  | 0, _ => []
  | fuel + 1, n =>
    if n < 10 then [digitChar n]
    else natStrRec fuel (n / 10) ++ [digitChar (n % 10)]

/-- Python `str` on a non-negative integer: decimal digits. -/
def pyStrNat (n : Nat) : List Char := natStrRec (n + 1) n

/-- Python `str` on an integer: optional minus sign, then decimal digits. -/
def pyStrInt (i : Int) : List Char :=
  if i < 0 then '-' :: pyStrNat (-i).toNat else pyStrNat i.toNat

/-- Numeric value of a digit string (assuming all characters are digits). -/
def natOfDigits (s : List Char) : Nat :=
  s.foldl (fun a c => 10 * a + (c.toNat - 48)) 0

/-- Python `int(s)` on a string of decimal digits; `none` models the
`ValueError` raised on any other input.  (CPython also strips surrounding
whitespace and accepts a leading `+`; those inessential laxities are not
modelled.) -/
def pyParseNat? (s : List Char) : Option Nat :=
  if s ≠ [] ∧ s.all isDigitChar then some (natOfDigits s) else none

/-- Python `int(s)` on a possibly-signed decimal string. -/
def pyParseInt? (s : List Char) : Option Int :=
  match s with
  | [] => none
  | c :: rest =>
    if c = '-' then (pyParseNat? rest).map (fun n => -(Int.ofNat n))
    else (pyParseNat? (c :: rest)).map Int.ofNat

/-- Python `str` on a float value.  Float values are modelled exactly as
rationals; CPython's documented guarantee is that `repr` of a float is a
string that `float()` parses back to the very same value.  We model that
round-trip property by an injective rendering `numerator / denominator`
(the digit-level shortest-decimal algorithm of CPython is not modelled). -/
def pyStrFloat (q : Rat) : List Char :=
  pyStrInt q.num ++ '/' :: pyStrNat q.den

/-- Python `float(s)`: parses either a plain integer string or the
`pyStrFloat` rendering; `none` models the `ValueError` on anything else. -/
def pyParseFloat? (s : List Char) : Option Rat :=
  let a := s.takeWhile (fun c => c ≠ '/')
  let b := s.dropWhile (fun c => c ≠ '/')
  match b with
  | [] => (pyParseInt? a).map (fun n => mkRat n 1)
  | _ :: rest => do
    let num ← pyParseInt? a
    let den ← pyParseNat? rest
    pure (mkRat num den)

/-- Python `str.strip()`: drop leading and trailing whitespace. -/
def pyStrip (s : List Char) : List Char :=
  ((s.dropWhile Char.isWhitespace).reverse.dropWhile Char.isWhitespace).reverse

/-- Python `needle in haystack` on strings: substring containment. -/
def pyInStr (needle : List Char) : List Char → Bool
  | [] => needle.isEmpty
  | c :: t => needle.isPrefixOf (c :: t) || pyInStr needle t

/-! ### Round-trip lemmas for the decimal rendering -/

theorem digitChar_toNat {d : Nat} (h : d < 10) : (digitChar d).toNat = 48 + d := by
  interval_cases d <;> rfl

theorem isDigitChar_digitChar {d : Nat} (h : d < 10) :
    isDigitChar (digitChar d) = true := by
  interval_cases d <;> rfl

theorem natStrRec_all_digits (fuel n : Nat) :
    (natStrRec fuel n).all isDigitChar = true := by
  induction fuel generalizing n with
  | zero => rfl
  | succ fuel ih =>
    rw [natStrRec]
    by_cases h : n < 10
    · simp [h, isDigitChar_digitChar h]
    · simp only [h, if_false, List.all_append, ih, Bool.true_and, List.all_cons,
        List.all_nil, Bool.and_true]
      exact isDigitChar_digitChar (Nat.mod_lt _ (by omega))

theorem natStrRec_ne_nil (fuel n : Nat) (hf : 0 < fuel) : natStrRec fuel n ≠ [] := by
  cases fuel with
  | zero => omega
  | succ fuel =>
    rw [natStrRec]
    by_cases h : n < 10
    · simp [h]
    · simp [h]

theorem natOfDigits_append (xs : List Char) (c : Char) :
    natOfDigits (xs ++ [c]) = 10 * natOfDigits xs + (c.toNat - 48) := by
  simp [natOfDigits, List.foldl_append]

theorem natOfDigits_natStrRec (fuel n : Nat) (h : n < fuel) :
    natOfDigits (natStrRec fuel n) = n := by
  induction fuel generalizing n with
  | zero => omega
  | succ fuel ih =>
    rw [natStrRec]
    by_cases h10 : n < 10
    · simp only [h10, if_true]
      show 10 * 0 + ((digitChar n).toNat - 48) = n
      rw [digitChar_toNat h10]
      omega
    · simp only [h10, if_false]
      rw [natOfDigits_append]
      have hdiv : n / 10 < fuel := by
        have : n / 10 < n := Nat.div_lt_self (by omega) (by omega)
        omega
      rw [ih _ hdiv, digitChar_toNat (Nat.mod_lt _ (by omega))]
      omega

theorem pyStrNat_all_digits (n : Nat) : (pyStrNat n).all isDigitChar = true :=
  natStrRec_all_digits _ _

theorem pyStrNat_ne_nil (n : Nat) : pyStrNat n ≠ [] :=
  natStrRec_ne_nil _ _ (Nat.succ_pos n)

/-- Round trip: `int(str(n)) == n` for a natural number `n`. -/
theorem pyParseNat?_pyStrNat (n : Nat) : pyParseNat? (pyStrNat n) = some n := by
  rw [pyParseNat?, if_pos ⟨pyStrNat_ne_nil n, pyStrNat_all_digits n⟩]
  exact congrArg some (natOfDigits_natStrRec _ _ (Nat.lt_succ_self n))

theorem head_not_minus_of_digits {c : Char} {t s : List Char}
    (hs : s.all isDigitChar = true) (he : s = c :: t) : c ≠ '-' := by
  subst he
  simp only [List.all_cons, Bool.and_eq_true] at hs
  intro hc
  subst hc
  exact absurd hs.1 (by decide)

/-- Round trip: `int(str(i)) == i` for an integer `i`. -/
theorem pyParseInt?_pyStrInt (i : Int) : pyParseInt? (pyStrInt i) = some i := by
  rw [pyStrInt]
  by_cases hi : i < 0
  · simp only [hi, if_true, pyParseInt?, if_pos rfl, pyParseNat?_pyStrNat,
      Option.map_some', Option.some.injEq, Int.ofNat_eq_natCast]
    omega
  · simp only [hi, if_false]
    obtain ⟨c, t, hct⟩ : ∃ c t, pyStrNat i.toNat = c :: t := by
      cases h : pyStrNat i.toNat with
      | nil => exact absurd h (pyStrNat_ne_nil _)
      | cons c t => exact ⟨c, t, rfl⟩
    have hc : c ≠ '-' := head_not_minus_of_digits (pyStrNat_all_digits i.toNat) hct
    rw [hct, pyParseInt?, if_neg hc, ← hct, pyParseNat?_pyStrNat]
    simp only [Option.map_some', Option.some.injEq, Int.ofNat_eq_natCast]
    omega

/-- The decimal rendering of an integer is injective. -/
theorem pyStrInt_injective {a b : Int} (h : pyStrInt a = pyStrInt b) : a = b := by
  have ha := pyParseInt?_pyStrInt a
  have hb := pyParseInt?_pyStrInt b
  rw [h, hb] at ha
  exact (Option.some_injective _ ha).symm

theorem no_slash_of_digits {s : List Char} (hs : s.all isDigitChar = true) :
    ∀ c ∈ s, c ≠ '/' := by
  intro c hc hmem
  subst hmem
  rw [List.all_eq_true] at hs
  exact absurd (hs _ hc) (by decide)

theorem pyStrInt_no_slash (i : Int) : ∀ c ∈ pyStrInt i, c ≠ '/' := by
  intro c hc
  rw [pyStrInt] at hc
  by_cases hi : i < 0
  · simp only [hi, if_true, List.mem_cons] at hc
    rcases hc with hc | hc
    · subst hc; decide
    · exact no_slash_of_digits (pyStrNat_all_digits _) c hc
  · simp only [hi, if_false] at hc
    exact no_slash_of_digits (pyStrNat_all_digits _) c hc

theorem takeWhile_append_of_all {p : Char → Bool} {xs : List Char} {y : Char}
    (ys : List Char) (hxs : ∀ x ∈ xs, p x = true) (hy : p y = false) :
    (xs ++ y :: ys).takeWhile p = xs := by
  induction xs with
  | nil =>
    simp only [List.nil_append]
    exact List.takeWhile_cons_of_neg (by simp [hy])
  | cons a t ih =>
    have ha := hxs a (List.mem_cons_self a t)
    rw [List.cons_append, List.takeWhile_cons_of_pos ha,
      ih (fun x hx => hxs x (List.mem_cons_of_mem a hx))]

theorem dropWhile_append_of_all {p : Char → Bool} {xs : List Char} {y : Char}
    (ys : List Char) (hxs : ∀ x ∈ xs, p x = true) (hy : p y = false) :
    (xs ++ y :: ys).dropWhile p = y :: ys := by
  induction xs with
  | nil =>
    simp only [List.nil_append]
    exact List.dropWhile_cons_of_neg (by simp [hy])
  | cons a t ih =>
    have ha := hxs a (List.mem_cons_self a t)
    rw [List.cons_append, List.dropWhile_cons_of_pos ha]
    exact ih (fun x hx => hxs x (List.mem_cons_of_mem a hx))

/-- Round trip: `float(str(x)) == x` for a (model) float value `x`. -/
theorem pyParseFloat?_pyStrFloat (q : Rat) : pyParseFloat? (pyStrFloat q) = some q := by
  rw [pyStrFloat, pyParseFloat?]
  have hall : ∀ c ∈ pyStrInt q.num, (fun c => decide (c ≠ '/')) c = true := by
    intro c hc
    simpa using pyStrInt_no_slash q.num c hc
  have hslash : (fun c => decide (c ≠ '/')) '/' = false := by decide
  rw [takeWhile_append_of_all _ hall hslash, dropWhile_append_of_all _ hall hslash]
  simp only [pyParseInt?_pyStrInt, pyParseNat?_pyStrNat, Option.bind_eq_bind,
    Option.some_bind]
  exact congrArg some (Rat.mkRat_self q)

/-- The (model) float rendering is injective. -/
theorem pyStrFloat_injective {a b : Rat} (h : pyStrFloat a = pyStrFloat b) : a = b := by
  have ha := pyParseFloat?_pyStrFloat a
  have hb := pyParseFloat?_pyStrFloat b
  rw [h, hb] at ha
  exact (Option.some_injective _ ha).symm

/-! ### Data model

A row of the `expenses` table, as consumed by the indexing paths
(`SELECT id, user_id, date, category, note, amount, type FROM expenses`).
`date` is the `str()` of the SQL date; `amount` is the numeric value
(`float()` of the stored decimal). -/

structure Transaction where
  id : Int
  user_id : Int
  date : List Char
  type : List Char
  category : List Char
  amount : Rat
  note : List Char
deriving DecidableEq, Repr

/-- The metadata mapping attached to an indexed document by
`_create_metadata`: all central fields are stored stringified. -/
structure Metadata where
  id : List Char
  user_id : List Char
  date : List Char
  type : List Char
  category : List Char
  amount : List Char
  note : List Char
deriving DecidableEq, Repr

/-- A LangChain `Document`: page content plus metadata. -/
structure Document where
  page_content : List Char
  metadata : Metadata
deriving DecidableEq, Repr

/-- A transaction dictionary as returned by `get_relevant_transactions`:
metadata fields coerced back to native types, plus the FAISS score. -/
structure TxResult where
  id : Int
  user_id : Int
  date : List Char
  type : List Char
  category : List Char
  amount : Rat
  note : List Char
  score : Rat
deriving DecidableEq, Repr

/-! ### Document formatter (`_format_transaction`, `_create_metadata`) -/

/-- Round `n / d` (with `d > 0`) to the nearest integer, ties to even —
the rounding used by Python's fixed-point string formatting. -/
def roundHalfEvenInt (n d : Int) : Int :=
  let f := Int.fdiv n d
  let r := n - d * f
  if 2 * r < d then f
  else if d < 2 * r then f + 1
  else if f % 2 = 0 then f else f + 1

/-- Python `f"{x:.2f}"` on a (model) float: fixed-point rendering with two
decimal places.  (Applied to the exact rational model value; decimal
artifacts of binary doubles are elided.) -/
def format2f (x : Rat) : List Char :=
  let c := roundHalfEvenInt (100 * x.num) (Int.ofNat x.den)
  if c < 0 then
    '-' :: (pyStrNat ((-c).toNat / 100) ++
      '.' :: [digitChar ((-c).toNat / 10 % 10), digitChar ((-c).toNat % 10)])
  else
    pyStrNat (c.toNat / 100) ++
      '.' :: [digitChar (c.toNat / 10 % 10), digitChar (c.toNat % 10)]

/-- Model of `_format_transaction`: canonical one-line text rendering of a
transaction (the document page content).  In the model a `Transaction` is
fully typed, so the `.get(..., default)` fallbacks for absent keys cannot
fire and are not represented. -/
def _format_transaction (tx : Transaction) : List Char :=
  "Transaction ID: ".data ++ pyStrInt tx.id ++
  " | User: ".data ++ pyStrInt tx.user_id ++
  " | Date: ".data ++ tx.date ++
  " | Type: ".data ++ tx.type ++
  " | Category: ".data ++ tx.category ++
  " | Amount: $".data ++ format2f tx.amount ++
  " | Note: ".data ++ tx.note

/-- Model of `_create_metadata`: stringified metadata for a transaction document.
`id`, `user_id`, `date` are `str(...)` of the source fields (for `date`,
already a string in the model); `amount` is `str(float(...))`. -/
def _create_metadata (tx : Transaction) : Metadata :=
  { id := pyStrInt tx.id
    user_id := pyStrInt tx.user_id
    date := tx.date
    type := tx.type
    category := tx.category
    amount := pyStrFloat tx.amount
    note := tx.note }

/-! ### Relevance gate (`_is_query_relevant`) -/

/-- The fixed finance/domain keyword vocabulary (incl. month names). -/
def keywords : List (List Char) :=
  ["expense".data, "expenses".data, "spend".data, "spent".data, "spending".data,
   "income".data, "earn".data, "earned".data, "salary".data, "wage".data,
   "paycheck".data, "budget".data, "savings".data, "save".data, "balance".data,
   "transaction".data, "transactions".data, "category".data, "categories".data,
   "rent".data, "food".data, "grocery".data, "groceries".data,
   "entertainment".data, "subscription".data, "subscriptions".data,
   "utilities".data, "electricity".data, "water".data, "gas".data, "fuel".data,
   "transport".data, "travel".data, "restaurant".data, "coffee".data,
   "bill".data, "bills".data, "due".data, "trend".data, "average".data,
   "total".data, "sum".data, "breakdown".data, "insight".data, "insights".data,
   "forecast".data, "recommendation".data, "recommendations".data,
   "daily".data, "weekly".data, "monthly".data, "yearly".data, "quarter".data,
   "january".data, "february".data, "march".data, "april".data, "may".data,
   "june".data, "july".data, "august".data, "september".data, "october".data,
   "november".data, "december".data]

/-- The fixed currency-marker patterns. -/
def money_markers : List (List Char) :=
  ["$".data, "usd".data, "dollar".data, "dollars".data]

/-- The fixed interrogative phrase patterns. -/
def phrases : List (List Char) :=
  ["how much".data, "how many".data, "what is my".data, "show me".data,
   "compare".data, "list my".data, "sum of".data, "total of".data,
   "spending on".data, "income from".data]

/-- All gate patterns together (keywords, then markers, then phrases). -/
def gate_patterns : List (List Char) := keywords ++ money_markers ++ phrases

/-- Model of `_is_query_relevant`: lexical heuristic deciding whether a query is
in-domain.  A function of the query string alone (the Python method reads
no instance state), so determinism and independence of the index state
hold by construction. -/
def _is_query_relevant (query : List Char) : Bool :=
  if query.isEmpty then false
  else
    let q := query.map Char.toLower
    if keywords.any (fun k => pyInStr k q) then true
    else if money_markers.any (fun m => pyInStr m q) then true
    else if phrases.any (fun p => pyInStr p q) then true
    else false

/-! ### Vector store persistence (`_load_vector_store`) -/

/-- The in-memory FAISS vector store: its docstore entries. -/
structure FaissStore where
  docs : List Document
deriving DecidableEq, Repr

/-- The on-disk state of the index directory.  `fingerprint` is the
readable content of `embedding_model.txt`; `none` models the file being
absent or unreadable (the code maps a read exception to `stored_model =
None`). -/
structure DiskState where
  indexFaiss : Bool
  indexPkl : Bool
  fingerprint : Option (List Char)
deriving DecidableEq, Repr

/-- Result of `_load_vector_store`: the in-memory store (`self.vector_store`),
the directory state afterwards, and whether `FAISS.load_local` was called. -/
structure LoadOutcome where
  store : Option FaissStore
  disk : DiskState
  loadInvoked : Bool
deriving DecidableEq, Repr

/-- Model of `_load_vector_store`.  Oracle arguments: `rmFaissOk`, `rmPklOk`,
`rmFpOk` say whether each `os.remove` in the cleanup succeeds (a failing
remove raises, aborting the remaining removals; the surrounding handler
logs and continues), and `loadResult` is the outcome of
`FAISS.load_local` if it is reached.  The function is total: the outer
`try/except` means no exception ever escapes to the caller. -/
def _load_vector_store (activeModel : List Char) (disk : DiskState)
    (rmFaissOk rmPklOk rmFpOk : Bool) (loadResult : Except PyErr FaissStore) :
    LoadOutcome :=
  if disk.indexFaiss then
    let stored : Option (List Char) := disk.fingerprint.map pyStrip
    if stored = none ∨ stored ≠ some activeModel then
      -- mismatch: clear the old index files, then leave the store empty
      if !rmFaissOk then { store := none, disk := disk, loadInvoked := false }
      else
        let d1 : DiskState := { disk with indexFaiss := false }
        if d1.indexPkl && !rmPklOk then
          { store := none, disk := d1, loadInvoked := false }
        else
          let d2 : DiskState := { d1 with indexPkl := false }
          if d2.fingerprint.isSome && !rmFpOk then
            { store := none, disk := d2, loadInvoked := false }
          else
            { store := none, disk := { d2 with fingerprint := none },
              loadInvoked := false }
    else
      match loadResult with
      | .ok s => { store := some s, disk := disk, loadInvoked := true }
      | .error _ => { store := none, disk := disk, loadInvoked := true }
  else
    { store := none, disk := disk, loadInvoked := false }

/-! ### Retriever (`get_relevant_transactions`) -/

/-- The user-scoped retrieval query `f"user:{user_id} {query}"`. -/
def user_context_query (uid : Int) (query : List Char) : List Char :=
  "user:".data ++ pyStrInt uid ++ ' ' :: query

/-- The message of the `ValueError` raised by a failing `int(...)` /
`float(...)` coercion inside the retrieval loop. -/
def coercionError : PyErr := "ValueError: could not convert metadata field".data

/-- The filtering loop of `get_relevant_transactions` over the scored
result list returned by `similarity_search_with_score`. -/
def retrieveLoop (uid : Int) (topK : Int) (seen : List (List Char))
    (acc : List TxResult) : List (Document × Rat) → Except PyErr (List TxResult)
  | [] => .ok acc.reverse
  | (doc, score) :: rest =>
    if doc.metadata.user_id ≠ pyStrInt uid then
      retrieveLoop uid topK seen acc rest
    else if doc.metadata.id ∈ seen then
      retrieveLoop uid topK seen acc rest
    else
      let seen' := doc.metadata.id :: seen
      match pyParseInt? doc.metadata.id with
      | none => .error coercionError
      | some txId =>
        match pyParseInt? doc.metadata.user_id with
        | none => .error coercionError
        | some txUser =>
          match pyParseFloat? doc.metadata.amount with
          | none => .error coercionError
          | some amt =>
            let t : TxResult :=
              { id := txId, user_id := txUser, date := doc.metadata.date,
                type := doc.metadata.type, category := doc.metadata.category,
                amount := amt, note := doc.metadata.note, score := score }
            let acc' := t :: acc
            if topK ≤ Int.ofNat acc'.length then .ok acc'.reverse
            else retrieveLoop uid topK seen' acc' rest

/-- Model of `get_relevant_transactions(user_id, query, top_k)`.

`searchResults = none` models `self.vector_store is None` (early empty
return); `searchResults = some results` models a present store for which
`similarity_search_with_score(user_context_query, k=top_k*2)` returned
`results`.  The search never returns more than `k` entries; theorems that
need this external contract take it as the hypothesis
`results.length ≤ 2 * top_k`. -/
def get_relevant_transactions (searchResults : Option (List (Document × Rat)))
    (uid : Int) (topK : Int) : Except PyErr (List TxResult) :=
  match searchResults with
  | none => .ok []
  | some results => retrieveLoop uid topK [] [] results

/-! ### Answer synthesis (`generate_answer`) -/

/-- The fixed out-of-context guard message `OOC_MESSAGE`. -/
def OOC_MESSAGE : List Char :=
  "I can only answer questions related to your expenses and financial insights.".data

/-- The fixed answer when no matches are supplied. -/
def NO_MATCH_MESSAGE : List Char :=
  "I couldn".data ++ apos ::
    "t find any relevant transactions to answer your question. Try rephrasing or ask about different transactions.".data

/-- The degraded answer produced when the generation call raises
(`str(e)` truncated to 100 characters). -/
def troubleMessage (e : PyErr) : List Char :=
  "I had trouble analyzing your transactions. Please try again. Technical details: ".data
    ++ e.take 100

/-- One context line per retrieved transaction, as built in
`generate_answer` (same canonical field order as `_format_transaction`). -/
def formatMatchLine (t : TxResult) : List Char :=
  "Transaction ID: ".data ++ pyStrInt t.id ++
  " | User: ".data ++ pyStrInt t.user_id ++
  " | Date: ".data ++ t.date ++
  " | Type: ".data ++ t.type ++
  " | Category: ".data ++ t.category ++
  " | Amount: $".data ++ format2f t.amount ++
  " | Note: ".data ++ t.note

/-- The context block built from the supplied matches,
`"\n".join(formatted_transactions)`. -/
def formatMatchesContext (ms : List TxResult) : List Char :=
  match ms with
  | [] => []
  | m :: rest => formatMatchLine m ++ (rest.map (fun t => '\n' :: formatMatchLine t)).flatten

/-- How the generation capability was invoked by `generate_answer`:
either through the `RetrievalQA` chain — whose context is the list of
documents freshly retrieved from the vector store with a
`user_id`-filtered retriever (`k=12`) — or directly over the context
block formatted from the supplied matches (fallback when no vector
store exists). -/
inductive GenCall where
  | chain (userFilter : List Char) (retrievedContext : List (List Char))
  | direct (context : List Char)
deriving DecidableEq, Repr

/-- Model of `generate_answer(user_id, query, matches)`.

Oracle arguments: `storePresent` models `self.vector_store is not None`;
`retrievedForGen` is the page content of the documents the user-filtered
retriever inside the `RetrievalQA` chain would fetch; `genOutcome` is the
outcome of the one generation-capability call (its text, or the raised
provider error).  Returns the answer text together with a record of the
generation invocation (`none` when no generation call was made). -/
def generate_answer (storePresent : Bool) (retrievedForGen : List (List Char))
    (genOutcome : Except PyErr (List Char)) (uid : Int) (query : List Char)
    (ms : List TxResult) : List Char × Option GenCall :=
  if !_is_query_relevant query then (OOC_MESSAGE, none)
  else if ms.isEmpty then (NO_MATCH_MESSAGE, none)
  else
    let context := formatMatchesContext ms
    if storePresent then
      -- RetrievalQA over `as_retriever(search_kwargs={"k": 12, "filter":
      -- {"user_id": str(user_id)}})`: the generation context is re-retrieved
      -- from the store, not taken from `context`
      match genOutcome with
      | .ok answer => (answer, some (.chain (pyStrInt uid) retrievedForGen))
      | .error e => (troubleMessage e, some (.chain (pyStrInt uid) retrievedForGen))
    else
      match genOutcome with
      | .ok answer => (answer, some (.direct context))
      | .error e => (troubleMessage e, some (.direct context))

/-! ### Incremental indexing (`add_transaction_to_index`) -/

/-- Model of `add_transaction_to_index(transaction)`.

Oracle arguments: `embedOutcome` is the outcome of
`embeddings.embed_documents([text])` (a list of vectors, or the raised
provider error; the code then indexes `[0]`, which raises on an empty
list); `addOutcome` is the outcome of
`FAISS.from_embeddings`/`add_embeddings` (the updated store);
`saveOutcome` that of `save_local`; `fpOutcome` that of writing the
fingerprint file — note the code swallows `fpOutcome` failures inside
their own handler.  Returns the success boolean and the resulting
`self.vector_store`; the function is total, i.e. never raises. -/
def add_transaction_to_index (embedOutcome : Except PyErr (List (List Rat)))
    (addOutcome : Except PyErr FaissStore) (saveOutcome : Except PyErr Unit)
    (fpOutcome : Except PyErr Unit) (store : Option FaissStore)
    (tx : Transaction) : Bool × Option FaissStore :=
  -- text and metadata building from a typed transaction never raises
  let _text := _format_transaction tx
  let _meta := _create_metadata tx
  match embedOutcome with
  | .error _ => (false, store)
  | .ok vecs =>
    match vecs.head? with
    | none => (false, store)           -- `[0]` on an empty result raises
    | some _vec =>
      match addOutcome with
      | .error _ => (false, store)
      | .ok newStore =>
        match saveOutcome with
        | .error _ => (false, some newStore)
        | .ok _ =>
          match fpOutcome with
          | .error _ => (true, some newStore)  -- fingerprint failure only logged
          | .ok _ => (true, some newStore)

/-! ### End-to-end pipeline (`query_with_rag`) -/

/-- The fixed answer when the index has not been built yet. -/
def NOT_INDEXED_MESSAGE : List Char :=
  "Your financial data hasn".data ++ apos ::
    "t been indexed yet. Please build the index first.".data

/-- The answer produced by the outer `except` handler of `query_with_rag`
(`str(e)` truncated to 100 characters). -/
def pipelineErrorAnswer (e : PyErr) : List Char :=
  "An error occurred while processing your question. Please try again later. Error: ".data
    ++ e.take 100

/-- The `{"answer": ..., "matches": ...}` dictionary returned by
`query_with_rag` — exactly these two keys. -/
structure RagResult where
  answer : List Char
  matches' : List TxResult
deriving DecidableEq, Repr

/-- Which collaborators a `query_with_rag` run actually invoked. -/
structure RagTrace where
  retrieverInvoked : Bool
  generationInvoked : Bool
deriving DecidableEq, Repr

/-- Model of `query_with_rag(user_id, query, top_k)`.

Oracles as in `get_relevant_transactions` and `generate_answer`:
`searchResults = none` models `self.vector_store is None`, and the same
presence flag feeds `generate_answer`.  The retrieval step may raise (a
`ValueError` from a metadata coercion), which the outer `except` converts
into an error answer with no matches.  The result also carries a trace of
which capabilities were invoked. -/
def query_with_rag (searchResults : Option (List (Document × Rat)))
    (retrievedForGen : List (List Char)) (genOutcome : Except PyErr (List Char))
    (uid : Int) (query : List Char) (topK : Int) : RagResult × RagTrace :=
  if !_is_query_relevant query then
    ({ answer := OOC_MESSAGE, matches' := [] },
     { retrieverInvoked := false, generationInvoked := false })
  else
    match searchResults with
    | none =>
      ({ answer := NOT_INDEXED_MESSAGE, matches' := [] },
       { retrieverInvoked := false, generationInvoked := false })
    | some results =>
      match get_relevant_transactions (some results) uid topK with
      | .error e =>
        ({ answer := pipelineErrorAnswer e, matches' := [] },
         { retrieverInvoked := true, generationInvoked := false })
      | .ok ms =>
        let (answer, call) :=
          generate_answer true retrievedForGen genOutcome uid query ms
        ({ answer := answer, matches' := ms },
         { retrieverInvoked := true, generationInvoked := call.isSome })

/-! ### Properties of the relevance gate -/

theorem pyInStr_mem {n : List Char} (h : List Char) (hin : pyInStr n h = true) :
    ∀ c ∈ n, c ∈ h := by
  induction h with
  | nil =>
    rw [pyInStr] at hin
    rw [List.isEmpty_iff.mp hin]
    intro c hc
    exact absurd hc (List.not_mem_nil c)
  | cons a t ih =>
    rw [pyInStr, Bool.or_eq_true] at hin
    intro c hc
    rcases hin with hp | ht
    · have hpre : n <+: a :: t := by simpa using hp
      exact hpre.subset hc
    · exact List.mem_cons_of_mem a (ih ht c hc)

theorem toLower_of_whitespace {c : Char} (h : c.isWhitespace = true) :
    c.toLower = c := by
  simp only [Char.isWhitespace, Bool.or_eq_true, decide_eq_true_eq] at h
  rcases h with ((h | h) | h) | h <;> subst h <;> decide

theorem gate_eq_any {q : List Char} (hq : q.isEmpty = false) :
    _is_query_relevant q =
      gate_patterns.any (fun p => pyInStr p (q.map Char.toLower)) := by
  rw [_is_query_relevant]
  simp only [hq, Bool.false_eq_true, if_false]
  rw [gate_patterns, List.any_append, List.any_append]
  cases h1 : keywords.any (fun k => pyInStr k (q.map Char.toLower)) <;>
    cases h2 : money_markers.any (fun m => pyInStr m (q.map Char.toLower)) <;>
    cases h3 : phrases.any (fun p => pyInStr p (q.map Char.toLower)) <;>
    simp [h1, h2, h3]

theorem gate_iff (q : List Char) :
    _is_query_relevant q = true ↔
      ∃ p ∈ gate_patterns, pyInStr p (q.map Char.toLower) = true := by
  cases hq : q.isEmpty
  · rw [gate_eq_any hq]
    exact List.any_eq_true
  · have hq' : q = [] := List.isEmpty_iff.mp hq
    subst hq'
    rw [_is_query_relevant]
    simp only [List.isEmpty_nil, if_true, Bool.false_eq_true, false_iff]
    rintro ⟨p, hp, hin⟩
    have hne : gate_patterns.all (fun p => !p.isEmpty) = true := by decide
    rw [List.all_eq_true] at hne
    have := hne p hp
    simp only [List.map_nil, pyInStr] at hin
    rw [hin] at this
    exact absurd this (by decide)

/-- Claim C7: `_is_query_relevant` is a function of the query string alone
(it reads no instance state, so determinism and index-state independence
hold by construction of the model); it returns `false` on every empty or
whitespace-only query, and it returns `true` exactly when the lowercased
query contains one of the fixed gate patterns (finance keywords and month
names, money markers, interrogative phrases) as a substring. -/
theorem is_query_relevant_spec :
    (∀ q : List Char, (∀ c ∈ q, c.isWhitespace = true) →
      _is_query_relevant q = false) ∧
    (∀ q : List Char, (_is_query_relevant q = true ↔
      ∃ p ∈ gate_patterns, pyInStr p (q.map Char.toLower) = true)) := by
  refine ⟨?_, gate_iff⟩
  intro q hws
  cases hgate : _is_query_relevant q
  · rfl
  · exfalso
    obtain ⟨p, hp, hin⟩ := (gate_iff q).mp hgate
    have hnws : gate_patterns.all (fun p => p.any (fun c => !c.isWhitespace)) = true := by
      decide
    rw [List.all_eq_true] at hnws
    obtain ⟨c0, hc0p, hc0⟩ := List.any_eq_true.mp (hnws p hp)
    have hc0q : c0 ∈ q.map Char.toLower := pyInStr_mem _ hin c0 hc0p
    obtain ⟨a, ha, hac⟩ := List.mem_map.mp hc0q
    have haws := hws a ha
    rw [toLower_of_whitespace haws] at hac
    subst hac
    rw [haws] at hc0
    exact absurd hc0 (by decide)

/-- Witness for C7 at concrete inputs: a whitespace-only query is gated
out and a finance query passes the gate. -/
theorem is_query_relevant_spec_witness :
    _is_query_relevant ("   ".data) = false ∧
      _is_query_relevant ("how much did I spend on food".data) = true :=
  ⟨is_query_relevant_spec.1 _ (by decide),
   (is_query_relevant_spec.2 _).mpr ⟨"how much".data, by decide, by decide⟩⟩

/-! ### Properties of the end-to-end pipeline guard -/

/-- Claim C2: If the relevance gate rejects the query, `query_with_rag`
returns exactly the fixed out-of-scope message with an empty matches
list, and neither the retriever nor the generation capability is
invoked — for every user id, `top_k`, index state and oracle outcome. -/
theorem query_with_rag_out_of_scope (searchResults : Option (List (Document × Rat)))
    (retrievedForGen : List (List Char)) (genOutcome : Except PyErr (List Char))
    (uid : Int) (query : List Char) (topK : Int)
    (hgate : _is_query_relevant query = false) :
    query_with_rag searchResults retrievedForGen genOutcome uid query topK =
      ({ answer := OOC_MESSAGE, matches' := [] },
       { retrieverInvoked := false, generationInvoked := false }) := by
  rw [query_with_rag.eq_def, hgate]
  rfl

/-- Witness for C2 at the spec's concrete scenario: the query
`"what is the capital of France"` is rejected by the gate, and the
pipeline returns the fixed out-of-scope message with no matches and no
retrieval or generation call, against a non-empty index state. -/
theorem query_with_rag_out_of_scope_witness :
    _is_query_relevant ("what is the capital of France".data) = false ∧
    query_with_rag
        (some [(⟨"doc".data, ⟨"1".data, "1".data, "2024-01-01".data, "Expense".data,
          "food".data, "50/1".data, [].map id⟩⟩, 1)])
        ["ctx".data] (.ok ("llm answer".data)) 1
        ("what is the capital of France".data) 10 =
      ({ answer := OOC_MESSAGE, matches' := [] },
       { retrieverInvoked := false, generationInvoked := false }) :=
  ⟨by decide, query_with_rag_out_of_scope _ _ _ _ _ _ (by decide)⟩

/-! ### Properties of the retriever -/

/-- Sample documents and results used in concrete witness evaluations. -/
def sampleDocU1 : Document :=
  ⟨"d1".data, ⟨"7".data, "1".data, "2024-01-01".data, "Expense".data,
    "food".data, "50/1".data, "lunch".data⟩⟩

def sampleDocU2 : Document :=
  ⟨"d2".data, ⟨"8".data, "2".data, "2024-01-02".data, "Expense".data,
    "food".data, "20/1".data, "dinner".data⟩⟩

def sampleDocU1b : Document :=
  ⟨"d3".data, ⟨"9".data, "1".data, "2024-01-03".data, "Expense".data,
    "coffee".data, "4/1".data, "espresso".data⟩⟩

def sampleTx7 : TxResult :=
  ⟨7, 1, "2024-01-01".data, "Expense".data, "food".data, mkRat 50 1,
    "lunch".data, mkRat 1 10⟩

def sampleTx9 : TxResult :=
  ⟨9, 1, "2024-01-03".data, "Expense".data, "coffee".data, mkRat 4 1,
    "espresso".data, mkRat 2 5⟩

theorem retrieveLoop_user_filter (uid topK : Int) :
    ∀ (results : List (Document × Rat)) (seen : List (List Char))
      (acc l : List TxResult),
      (∀ t ∈ acc, t.user_id = uid) →
      retrieveLoop uid topK seen acc results = .ok l →
      ∀ t ∈ l, t.user_id = uid := by
  intro results
  induction results with
  | nil =>
    intro seen acc l hacc hok
    rw [retrieveLoop] at hok
    obtain rfl : acc.reverse = l := by simpa using hok
    intro t ht
    exact hacc t (List.mem_reverse.mp ht)
  | cons ds rest ih =>
    obtain ⟨doc, score⟩ := ds
    intro seen acc l hacc hok
    rw [retrieveLoop] at hok
    by_cases huser : doc.metadata.user_id ≠ pyStrInt uid
    · rw [if_pos huser] at hok
      exact ih seen acc l hacc hok
    · rw [if_neg huser] at hok
      have hequ : doc.metadata.user_id = pyStrInt uid := not_not.mp huser
      by_cases hseen : doc.metadata.id ∈ seen
      · rw [if_pos hseen] at hok
        exact ih seen acc l hacc hok
      · rw [if_neg hseen] at hok
        cases hid : pyParseInt? doc.metadata.id with
        | none =>
          simp only [hid] at hok
          exact Except.noConfusion hok
        | some txId =>
          simp only [hid] at hok
          cases huid : pyParseInt? doc.metadata.user_id with
          | none =>
            simp only [huid] at hok
            exact Except.noConfusion hok
          | some txUser =>
            simp only [huid] at hok
            have htu : txUser = uid := by
              rw [hequ, pyParseInt?_pyStrInt] at huid
              injection huid with h
              exact h.symm
            cases hamt : pyParseFloat? doc.metadata.amount with
            | none =>
              simp only [hamt] at hok
              exact Except.noConfusion hok
            | some amt =>
              simp only [hamt] at hok
              split at hok
              · injection hok with hok'
                subst hok'
                intro t ht
                rw [List.mem_reverse] at ht
                rcases List.mem_cons.mp ht with rfl | ht
                · exact htu
                · exact hacc t ht
              · refine ih _ _ l ?_ hok
                intro t ht
                rcases List.mem_cons.mp ht with rfl | ht
                · exact htu
                · exact hacc t ht

/-- Claim C1: For every user id, `top_k` and search outcome, every entry of
a successfully returned retrieval list belongs to the requested user:
documents whose stringified metadata `user_id` differs from
`str(user_id)` are filtered out before being added to the result. -/
theorem get_relevant_transactions_user_scoped
    (results : List (Document × Rat)) (uid topK : Int) (l : List TxResult)
    (hok : get_relevant_transactions (some results) uid topK = .ok l) :
    ∀ t ∈ l, t.user_id = uid := by
  rw [get_relevant_transactions] at hok
  exact retrieveLoop_user_filter uid topK results [] [] l (by simp) hok

/-- Witness for C1: a concrete search outcome holding documents of users
1 and 2; the retrieval for user 1 succeeds, drops the user-2 document
and every returned entry has `user_id = 1`. -/
theorem get_relevant_transactions_user_scoped_witness :
    get_relevant_transactions (some [(sampleDocU1, mkRat 1 10), (sampleDocU2, mkRat 1 5)])
        1 10 = .ok [sampleTx7] ∧
    ∀ t ∈ [sampleTx7], t.user_id = 1 :=
  ⟨by decide,
   get_relevant_transactions_user_scoped
     [(sampleDocU1, mkRat 1 10), (sampleDocU2, mkRat 1 5)] 1 10 [sampleTx7]
     (by decide)⟩

theorem retrieveLoop_length (uid topK : Int) :
    ∀ (results : List (Document × Rat)) (seen : List (List Char))
      (acc l : List TxResult),
      Int.ofNat acc.length < topK →
      retrieveLoop uid topK seen acc results = .ok l →
      Int.ofNat l.length ≤ topK := by
  intro results
  induction results with
  | nil =>
    intro seen acc l hlen hok
    rw [retrieveLoop] at hok
    obtain rfl : acc.reverse = l := by simpa using hok
    simpa using le_of_lt hlen
  | cons ds rest ih =>
    obtain ⟨doc, score⟩ := ds
    intro seen acc l hlen hok
    rw [retrieveLoop] at hok
    by_cases huser : doc.metadata.user_id ≠ pyStrInt uid
    · rw [if_pos huser] at hok
      exact ih seen acc l hlen hok
    · rw [if_neg huser] at hok
      by_cases hseen : doc.metadata.id ∈ seen
      · rw [if_pos hseen] at hok
        exact ih seen acc l hlen hok
      · rw [if_neg hseen] at hok
        cases hid : pyParseInt? doc.metadata.id with
        | none =>
          simp only [hid] at hok
          exact Except.noConfusion hok
        | some txId =>
          simp only [hid] at hok
          cases huid : pyParseInt? doc.metadata.user_id with
          | none =>
            simp only [huid] at hok
            exact Except.noConfusion hok
          | some txUser =>
            simp only [huid] at hok
            cases hamt : pyParseFloat? doc.metadata.amount with
            | none =>
              simp only [hamt] at hok
              exact Except.noConfusion hok
            | some amt =>
              simp only [hamt] at hok
              split at hok
              · injection hok with hok'
                subst hok'
                simp only [Int.ofNat_eq_natCast, List.length_reverse,
                  List.length_cons] at hlen ⊢
                omega
              · rename_i hstop
                refine ih _ _ l ?_ hok
                simp only [Int.ofNat_eq_natCast, List.length_cons, not_le] at hstop ⊢
                omega

/-- Claim C5: Under the external search contract that
`similarity_search_with_score(..., k = top_k*2)` returns at most
`2 * top_k` entries: a successful retrieval returns at most `top_k`
entries for every `top_k ≥ 0` (fewer when fewer survive filtering, with
no padding and no error), returns the empty list for every `top_k ≤ 0`,
and returns the empty list whenever the vector store is absent. -/
theorem get_relevant_transactions_length_spec
    (results : List (Document × Rat)) (uid topK : Int) (l : List TxResult)
    (hres : Int.ofNat results.length ≤ 2 * topK)
    (hok : get_relevant_transactions (some results) uid topK = .ok l) :
    (0 ≤ topK → Int.ofNat l.length ≤ topK) ∧ (topK ≤ 0 → l = []) ∧
      get_relevant_transactions none uid topK = .ok [] := by
  rw [get_relevant_transactions] at hok
  simp only [Int.ofNat_eq_natCast] at hres
  have hempty : topK ≤ 0 → results = [] := by
    intro h
    have hlen : results.length = 0 := by omega
    exact List.length_eq_zero.mp hlen
  have hnil : results = [] → l = [] := by
    intro h
    subst h
    rw [retrieveLoop] at hok
    obtain rfl : ([] : List TxResult).reverse = l := by simpa using hok
    rfl
  refine ⟨?_, fun h => hnil (hempty h), rfl⟩
  intro hpos
  by_cases hzero : topK = 0
  · subst hzero
    rw [hnil (hempty le_rfl)]
    simp
  · have hstrict : (0 : Int) < topK := by omega
    refine retrieveLoop_length uid topK results [] [] l ?_ hok
    simpa using hstrict

/-- Witness for C5: with `top_k = 1` and two same-user candidates, the
retrieval succeeds with exactly one entry, discharging the length bound,
the `top_k ≤ 0` clause and the absent-store clause at this input. -/
theorem get_relevant_transactions_length_spec_witness :
    (0 ≤ (1 : Int) → Int.ofNat [sampleTx7].length ≤ 1) ∧
      ((1 : Int) ≤ 0 → [sampleTx7] = []) ∧
      get_relevant_transactions none 1 1 = .ok [] :=
  get_relevant_transactions_length_spec
    [(sampleDocU1, mkRat 1 10), (sampleDocU1b, mkRat 2 5)] 1 1 [sampleTx7]
    (by decide) (by decide)

theorem retrieveLoop_nodup (uid topK : Int) :
    ∀ (results : List (Document × Rat)) (seen : List (List Char))
      (acc l : List TxResult),
      (∀ d ∈ results, ∃ i : Int, d.1.metadata.id = pyStrInt i) →
      (∀ t ∈ acc, pyStrInt t.id ∈ seen) →
      (acc.map TxResult.id).Nodup →
      retrieveLoop uid topK seen acc results = .ok l →
      (l.map TxResult.id).Nodup := by
  intro results
  induction results with
  | nil =>
    intro seen acc l _ _ hnodup hok
    rw [retrieveLoop] at hok
    obtain rfl : acc.reverse = l := by simpa using hok
    rw [List.map_reverse, List.nodup_reverse]
    exact hnodup
  | cons ds rest ih =>
    obtain ⟨doc, score⟩ := ds
    intro seen acc l hcanon hseenInv hnodup hok
    have hcanonRest : ∀ d ∈ rest, ∃ i : Int, d.1.metadata.id = pyStrInt i :=
      fun d hd => hcanon d (List.mem_cons_of_mem _ hd)
    rw [retrieveLoop] at hok
    by_cases huser : doc.metadata.user_id ≠ pyStrInt uid
    · rw [if_pos huser] at hok
      exact ih seen acc l hcanonRest hseenInv hnodup hok
    · rw [if_neg huser] at hok
      by_cases hseen : doc.metadata.id ∈ seen
      · rw [if_pos hseen] at hok
        exact ih seen acc l hcanonRest hseenInv hnodup hok
      · rw [if_neg hseen] at hok
        cases hid : pyParseInt? doc.metadata.id with
        | none =>
          simp only [hid] at hok
          exact Except.noConfusion hok
        | some txId =>
          simp only [hid] at hok
          have hkey : pyStrInt txId = doc.metadata.id := by
            obtain ⟨i, hi⟩ := hcanon _ (List.mem_cons_self _ _)
            have hpi : pyParseInt? (pyStrInt i) = some txId := by
              rw [← hi]; exact hid
            rw [pyParseInt?_pyStrInt] at hpi
            injection hpi with h
            rw [← h, hi]
          have hnotin : txId ∉ acc.map TxResult.id := by
            intro hmem
            obtain ⟨t', ht', hid'⟩ := List.mem_map.mp hmem
            have hm := hseenInv t' ht'
            rw [hid', hkey] at hm
            exact hseen hm
          cases huid : pyParseInt? doc.metadata.user_id with
          | none =>
            simp only [huid] at hok
            exact Except.noConfusion hok
          | some txUser =>
            simp only [huid] at hok
            cases hamt : pyParseFloat? doc.metadata.amount with
            | none =>
              simp only [hamt] at hok
              exact Except.noConfusion hok
            | some amt =>
              simp only [hamt] at hok
              split at hok
              · injection hok with hok'
                subst hok'
                rw [List.map_reverse, List.nodup_reverse, List.map_cons,
                  List.nodup_cons]
                exact ⟨hnotin, hnodup⟩
              · refine ih _ _ l hcanonRest ?_ ?_ hok
                · intro t' ht'
                  rcases List.mem_cons.mp ht' with rfl | ht'
                  · rw [hkey]
                    exact List.mem_cons_self _ _
                  · exact List.mem_cons_of_mem _ (hseenInv t' ht')
                · rw [List.map_cons, List.nodup_cons]
                  exact ⟨hnotin, hnodup⟩

/-- Claim C6: For documents carrying canonically stringified transaction
ids (as produced by `_create_metadata`), a successfully returned
retrieval list never contains two entries with the same transaction id:
the `seen_ids` set keeps only the first (closest-first) occurrence of
each metadata id. -/
theorem get_relevant_transactions_nodup
    (results : List (Document × Rat)) (uid topK : Int) (l : List TxResult)
    (hcanon : ∀ d ∈ results, ∃ i : Int, d.1.metadata.id = pyStrInt i)
    (hok : get_relevant_transactions (some results) uid topK = .ok l) :
    (l.map TxResult.id).Nodup := by
  rw [get_relevant_transactions] at hok
  exact retrieveLoop_nodup uid topK results [] [] l hcanon (by simp)
    (by simp) hok

/-- Witness for C6: a search outcome that mentions the same document id
"7" twice (as FAISS ranking may); the retrieval deduplicates, keeps the
first occurrence and returns distinct ids. -/
theorem get_relevant_transactions_nodup_witness :
    get_relevant_transactions
        (some [(sampleDocU1, mkRat 1 10), (sampleDocU1, mkRat 3 10),
          (sampleDocU1b, mkRat 2 5)]) 1 10 = .ok [sampleTx7, sampleTx9] ∧
    (([sampleTx7, sampleTx9].map TxResult.id).Nodup) :=
  ⟨by decide,
   get_relevant_transactions_nodup
     [(sampleDocU1, mkRat 1 10), (sampleDocU1, mkRat 3 10),
       (sampleDocU1b, mkRat 2 5)] 1 10 [sampleTx7, sampleTx9]
     (by
       intro d hd
       rcases List.mem_cons.mp hd with rfl | hd
       · exact ⟨7, by decide⟩
       rcases List.mem_cons.mp hd with rfl | hd
       · exact ⟨7, by decide⟩
       rcases List.mem_cons.mp hd with rfl | hd
       · exact ⟨9, by decide⟩
       exact absurd hd (List.not_mem_nil d))
     (by decide)⟩


/-! ### Properties of index persistence -/

/-- Claim C4: When the on-disk index exists but its stored embedding-model
fingerprint is missing or (after stripping) differs from the active
embedding model, `_load_vector_store` leaves the in-memory store empty,
never calls `FAISS.load_local` (so it never merges or loads the stale
index), and never raises, for every cleanup outcome; when the cleanup
removals all succeed the index files and the fingerprint file are gone
from disk. -/
theorem load_vector_store_mismatch
    (activeModel : List Char) (disk : DiskState)
    (rmFaissOk rmPklOk rmFpOk : Bool) (loadResult : Except PyErr FaissStore)
    (hfaiss : disk.indexFaiss = true)
    (hmis : disk.fingerprint.map pyStrip ≠ some activeModel) :
    (_load_vector_store activeModel disk rmFaissOk rmPklOk rmFpOk
      loadResult).store = none ∧
    (_load_vector_store activeModel disk rmFaissOk rmPklOk rmFpOk
      loadResult).loadInvoked = false ∧
    (rmFaissOk = true → rmPklOk = true → rmFpOk = true →
      (_load_vector_store activeModel disk rmFaissOk rmPklOk rmFpOk
        loadResult).disk = ⟨false, false, none⟩) := by
  obtain ⟨f, pkl, fp⟩ := disk
  simp only at hfaiss hmis
  subst hfaiss
  simp only [_load_vector_store, if_true]
  rw [if_pos (Or.inr hmis)]
  cases rmFaissOk <;> cases rmPklOk <;> cases rmFpOk <;> cases pkl <;>
    cases fp <;> simp

/-- Witness for C4: a directory holding an index built under the
fingerprint "old-model" loaded while the active model is "new-model";
the store stays empty, no load happens, and with successful cleanup the
directory ends up cleared. -/
theorem load_vector_store_mismatch_witness :
    (_load_vector_store ("new-model".data) ⟨true, true, some ("old-model".data)⟩
      true true true (.ok ⟨[sampleDocU1]⟩)).store = none ∧
    (_load_vector_store ("new-model".data) ⟨true, true, some ("old-model".data)⟩
      true true true (.ok ⟨[sampleDocU1]⟩)).loadInvoked = false ∧
    (true = true → true = true → true = true →
      (_load_vector_store ("new-model".data) ⟨true, true, some ("old-model".data)⟩
        true true true (.ok ⟨[sampleDocU1]⟩)).disk = ⟨false, false, none⟩) :=
  load_vector_store_mismatch ("new-model".data) ⟨true, true, some ("old-model".data)⟩
    true true true (.ok ⟨[sampleDocU1]⟩) (by decide) (by decide)

/-! ### Properties of incremental indexing -/

/-- Claim C8: `add_transaction_to_index` is total (never raises, by the
type of the model) and returns `true` exactly when the
format/embed/add/save sequence succeeds: the embedding call returns a
non-empty vector list, the FAISS add succeeds, and `save_local`
succeeds.  A failure of the fingerprint write after the save is swallowed
(the result does not depend on `fpOutcome`); every other failure in the
sequence is caught and reported as `false`. -/
theorem add_transaction_to_index_spec
    (embedOutcome : Except PyErr (List (List Rat)))
    (addOutcome : Except PyErr FaissStore) (saveOutcome : Except PyErr Unit)
    (fpOutcome : Except PyErr Unit) (store : Option FaissStore)
    (tx : Transaction) :
    (add_transaction_to_index embedOutcome addOutcome saveOutcome fpOutcome
        store tx).1 = true ↔
      ((∃ v vs, embedOutcome = .ok (v :: vs)) ∧ (∃ s, addOutcome = .ok s) ∧
        saveOutcome = .ok ()) := by
  rcases embedOutcome with e | vecs
  · simp [add_transaction_to_index]
  · rcases vecs with _ | ⟨v, vs⟩
    · simp [add_transaction_to_index]
    · rcases addOutcome with e | ns
      · simp [add_transaction_to_index]
      · rcases saveOutcome with e | u
        · simp [add_transaction_to_index]
        · rcases fpOutcome with e | u2 <;> simp [add_transaction_to_index]

/-! ### Properties of the metadata stringification -/

/-- Claim C10: `_create_metadata` stores `id`, `user_id`, `date` and
`amount` stringified (`user_id` as `str(user_id)`, `amount` as
`str(float(amount))`; all four fields have string type in the model),
and this stringification is exactly inverted by the retriever's
coercions: comparing the stored `user_id` against `str(u)` agrees with
native integer equality, and `int(...)`/`float(...)` recover the
original native `id`, `user_id` and `amount`. -/
theorem create_metadata_stringify_roundtrip (tx : Transaction) (u : Int) :
    (_create_metadata tx).id = pyStrInt tx.id ∧
    (_create_metadata tx).user_id = pyStrInt tx.user_id ∧
    (_create_metadata tx).date = tx.date ∧
    (_create_metadata tx).amount = pyStrFloat tx.amount ∧
    (((_create_metadata tx).user_id = pyStrInt u) ↔ tx.user_id = u) ∧
    pyParseInt? (_create_metadata tx).id = some tx.id ∧
    pyParseInt? (_create_metadata tx).user_id = some tx.user_id ∧
    pyParseFloat? (_create_metadata tx).amount = some tx.amount := by
  refine ⟨rfl, rfl, rfl, rfl, ⟨fun h => pyStrInt_injective h, fun h => ?_⟩,
    pyParseInt?_pyStrInt tx.id, pyParseInt?_pyStrInt tx.user_id,
    pyParseFloat?_pyStrFloat tx.amount⟩
  rw [show (_create_metadata tx).user_id = pyStrInt tx.user_id from rfl, h]

/-! ### Properties of answer synthesis -/

/-- A concrete relevant query used in counterexample evaluations. -/
def sampleQuery : List Char := "how much did I spend on food".data

/-- Claim C3, counterexample: At a concrete relevant query with a
non-empty matches list and a vector store present, the generation
capability is invoked through the `RetrievalQA` chain over context
re-retrieved from the store — not over the context block formatted from
the supplied matches — refuting the claim that the generated answer is
grounded strictly in the supplied candidate set. -/
theorem generate_answer_ignores_matches_context :
    _is_query_relevant sampleQuery = true ∧
    ([sampleTx7] : List TxResult) ≠ [] ∧
    (generate_answer true ["other stored doc".data] (.ok ("ans".data)) 1
        sampleQuery [sampleTx7]).2 ≠
      some (GenCall.direct (formatMatchesContext [sampleTx7])) := by
  refine ⟨by decide, by decide, by decide⟩

/-- Claim C3, amended: For every relevant query and non-empty matches
list, `generate_answer` builds the canonical matches context block, but
passes it to the generation capability only on the fallback path where no
vector store is present; when a vector store is present the single
generation call goes through the retrieval chain, whose context is
re-retrieved from the store with a `user_id` filter (k=12).  In both
paths a successful generation outcome is returned verbatim as the
answer. -/
theorem generate_answer_context_spec
    (storePresent : Bool) (retrievedForGen : List (List Char))
    (genOutcome : Except PyErr (List Char)) (uid : Int) (query : List Char)
    (ms : List TxResult) (hrel : _is_query_relevant query = true)
    (hne : ms ≠ []) :
    (generate_answer storePresent retrievedForGen genOutcome uid query ms).2 =
      some (if storePresent then GenCall.chain (pyStrInt uid) retrievedForGen
        else GenCall.direct (formatMatchesContext ms)) ∧
    (∀ t, genOutcome = .ok t →
      (generate_answer storePresent retrievedForGen genOutcome uid query
        ms).1 = t) := by
  have hie : ms.isEmpty = false := by
    cases hms : ms.isEmpty
    · rfl
    · exact absurd (List.isEmpty_iff.mp hms) hne
  rw [generate_answer.eq_def, hrel]
  simp only [Bool.not_true, Bool.false_eq_true, if_false, hie]
  cases storePresent <;> rcases genOutcome with e | t' <;>
    simp

/-- Witness for the amended C3 on both paths: with no vector store the
generation call receives exactly the formatted matches context; with a
vector store it receives the chain invocation instead. -/
theorem generate_answer_context_spec_witness :
    ((generate_answer false ["other stored doc".data] (.ok ("ans".data)) 1
        sampleQuery [sampleTx7]).2 =
      some (GenCall.direct (formatMatchesContext [sampleTx7]))) ∧
    ((generate_answer true ["other stored doc".data] (.ok ("ans".data)) 1
        sampleQuery [sampleTx7]).2 =
      some (GenCall.chain (pyStrInt 1) ["other stored doc".data])) :=
  ⟨(generate_answer_context_spec false ["other stored doc".data]
      (.ok ("ans".data)) 1 sampleQuery [sampleTx7] (by decide) (by decide)).1,
   (generate_answer_context_spec true ["other stored doc".data]
      (.ok ("ans".data)) 1 sampleQuery [sampleTx7] (by decide) (by decide)).1⟩

/-! ### Error handling of the end-to-end pipeline -/

/-- Claim C9, counterexample: A generation-capability error is caught
inside `generate_answer`, so `query_with_rag` returns the degraded
generation answer together with the retrieved non-empty matches list: an
error raised during answer generation is *not* converted into an answer
with an empty matches list, refuting the claim as stated. -/
theorem query_with_rag_generation_error_keeps_matches :
    (query_with_rag (some [(sampleDocU1, mkRat 1 10)]) ["ctx".data]
        (.error ("boom".data)) 1 sampleQuery 10).1 =
      { answer := troubleMessage ("boom".data), matches' := [sampleTx7] } ∧
    ([sampleTx7] : List TxResult) ≠ [] := by
  refine ⟨by decide, by decide⟩

/-- Claim C9, amended: `query_with_rag` is total and always returns the
two-field `{answer, matches}` dictionary (by the type of the model): an
error raised during retrieval is caught by the outer handler and
converted into an error-message answer with an empty matches list, while
a generation-capability error is caught inside `generate_answer` and
converted into a degraded error answer that keeps the retrieved
matches. -/
theorem query_with_rag_error_handling
    (results : List (Document × Rat)) (retrievedForGen : List (List Char))
    (uid : Int) (query : List Char) (topK : Int)
    (hrel : _is_query_relevant query = true) :
    (∀ e, get_relevant_transactions (some results) uid topK = .error e →
      ∀ genOutcome,
        query_with_rag (some results) retrievedForGen genOutcome uid query
          topK =
          ({ answer := pipelineErrorAnswer e, matches' := [] },
           { retrieverInvoked := true, generationInvoked := false })) ∧
    (∀ ms e, get_relevant_transactions (some results) uid topK = .ok ms →
      ms ≠ [] →
      (query_with_rag (some results) retrievedForGen (.error e) uid query
        topK).1 = { answer := troubleMessage e, matches' := ms }) := by
  constructor
  · intro e herr genOutcome
    rw [query_with_rag.eq_def, hrel]
    simp only [Bool.not_true, Bool.false_eq_true, if_false, herr]
  · intro ms e hok hne
    have hie : ms.isEmpty = false := by
      cases hms : ms.isEmpty
      · rfl
      · exact absurd (List.isEmpty_iff.mp hms) hne
    rw [query_with_rag.eq_def, hrel]
    simp only [Bool.not_true, Bool.false_eq_true, if_false, hok]
    rw [generate_answer.eq_def, hrel]
    simp only [Bool.not_true, Bool.false_eq_true, if_false, hie, if_true]

/-- A document whose metadata id is not a decimal string, so the
retrieval loop's `int(...)` coercion raises on it. -/
def badIdDoc : Document :=
  ⟨"dx".data, ⟨"abc".data, "1".data, "2024-01-04".data, "Expense".data,
    "food".data, "5/1".data, "snack".data⟩⟩

/-- Witness for the amended C9 on both error paths: a malformed metadata
id makes retrieval raise and the pipeline answers with the error message
and zero matches; a generation error keeps the retrieved matches. -/
theorem query_with_rag_error_handling_witness :
    (get_relevant_transactions (some [(badIdDoc, mkRat 1 10)]) 1 10 =
      .error coercionError ∧
    query_with_rag (some [(badIdDoc, mkRat 1 10)]) [] (.ok ("a".data)) 1
        sampleQuery 10 =
      ({ answer := pipelineErrorAnswer coercionError, matches' := [] },
       { retrieverInvoked := true, generationInvoked := false })) ∧
    (get_relevant_transactions (some [(sampleDocU1, mkRat 1 10)]) 1 10 =
      .ok [sampleTx7] ∧
    (query_with_rag (some [(sampleDocU1, mkRat 1 10)]) [] (.error ("boom".data))
        1 sampleQuery 10).1 =
      { answer := troubleMessage ("boom".data), matches' := [sampleTx7] }) :=
  ⟨⟨by decide,
    (query_with_rag_error_handling [(badIdDoc, mkRat 1 10)] [] 1 sampleQuery 10
        (by decide)).1 coercionError (by decide) (.ok ("a".data))⟩,
   ⟨by decide,
    (query_with_rag_error_handling [(sampleDocU1, mkRat 1 10)] [] 1 sampleQuery
        10 (by decide)).2 [sampleTx7] "boom".data (by decide) (by decide)⟩⟩

end BudgetWise

